import Mathlib

/-!
Verification of the data-acquisition core of the vendored LaunchDarkly
go-server-sdk v7 (packages `internal/fdv2proto`, `internal/datasourcev2`,
and the `ldcomponents` data-system configuration builder), as a shallow
embedding in Lean 4.

Pure Go functions become Lean functions; the stateful event/poll loops
become explicit step functions from a state plus an input to a new state
plus an ordered list of observable side effects (status reports,
destination calls, ready-signal firings, transport restarts).  JSON
parsing of event bodies is abstracted as an `Except String` input: the
loop's behaviour depends only on whether the body parsed and on the
parsed value, which is exactly what the Go code branches on.  Wall-clock
times carried inside error-info records are omitted.
-/

namespace LDSdk

/-! ## fdv2proto: Selector (selector.go) -/

/-- Mirrors `fdv2proto.Selector`: a snapshot identifier with an opaque
`state` string and an integer `version`. -/
structure Selector where
  state : String
  version : Int
deriving DecidableEq, Repr

/-- Mirrors `fdv2proto.NoSelector`: the zero-valued selector. -/
def NoSelector : Selector := { state := "", version := 0 }

/-- Mirrors `fdv2proto.NewSelector`. -/
def NewSelector (state : String) (version : Int) : Selector :=
  { state := state, version := version }

namespace Selector

/-- Mirrors `Selector.IsDefined`: true iff the selector differs from the
zero value (`s != NoSelector()` in Go). -/
def IsDefined (s : Selector) : Bool := decide (s ≠ NoSelector)

/-- Mirrors `Selector.State`. -/
def State (s : Selector) : String := s.state

/-- Mirrors `Selector.Version`. -/
def Version (s : Selector) : Int := s.version

end Selector

/-! ## fdv2proto: Change / ChangeSet / ChangeSetBuilder (changeset.go) -/

/-- Mirrors Go `json.RawMessage` as carried by a `Change`: either absent
(nil, as for deletions) or an opaque serialized body. -/
def RawMessage : Type := Option String
deriving instance DecidableEq, Repr for RawMessage

/-- Mirrors `fdv2proto.ObjectKind` (an opaque string naming the object
category, e.g. flag or segment). -/
def ObjectKind : Type := String
deriving instance DecidableEq, Repr for ObjectKind

/-- Mirrors `fdv2proto.ChangeType` with its two constants
`ChangeTypePut` and `ChangeTypeDelete`. -/
inductive ChangeType where
  | put
  | delete
deriving DecidableEq, Repr

/-- Modelled from the spec: `fdv2proto.IntentCode` and its constants
(`IntentTransferFull`, `IntentTransferChanges`, `IntentNone`) are declared
in an fdv2proto source file not included under src/; the spec names the
three codes full-transfer, incremental-transfer and no-change. -/
inductive IntentCode where
  | IntentTransferFull
  | IntentTransferChanges
  | IntentNone
deriving DecidableEq, Repr

/-- Modelled from the spec: the `fdv2proto.ServerIntent` event body
(nested payload with an intent code) is declared outside src/; only its
`Payload.Code` field is consulted by the code under verification. -/
structure Payload where
  code : IntentCode
deriving DecidableEq, Repr

/-- Modelled from the spec: see `Payload`. -/
structure ServerIntent where
  payload : Payload
deriving DecidableEq, Repr

/-- Mirrors `fdv2proto.Change`. -/
structure Change where
  action : ChangeType
  kind : ObjectKind
  key : String
  version : Int
  object : RawMessage
deriving DecidableEq, Repr

/-- Mirrors `fdv2proto.ChangeSet`. -/
structure ChangeSet where
  intentCode : IntentCode
  changes : List Change
  selector : Selector
deriving DecidableEq, Repr

namespace ChangeSet

/-- Mirrors `ChangeSet.IntentCode`. -/
def IntentCode (c : ChangeSet) : LDSdk.IntentCode := c.intentCode

/-- Mirrors `ChangeSet.Changes`. -/
def Changes (c : ChangeSet) : List Change := c.changes

/-- Mirrors `ChangeSet.Selector`. -/
def SelectorOf (c : ChangeSet) : Selector := c.selector

end ChangeSet

/-- Mirrors `fdv2proto.ChangeSetBuilder`: a pending optional intent and
an appendable change list. -/
structure ChangeSetBuilder where
  intent : Option ServerIntent
  changes : List Change
deriving DecidableEq, Repr

/-- Mirrors `fdv2proto.NewChangeSetBuilder`: the empty builder. -/
def NewChangeSetBuilder : ChangeSetBuilder := { intent := none, changes := [] }

namespace ChangeSetBuilder

/-- Mirrors `ChangeSetBuilder.NoChanges`. -/
def NoChanges (_ : ChangeSetBuilder) : ChangeSet :=
  { intentCode := .IntentNone, selector := NoSelector, changes := [] }

/-- Mirrors `ChangeSetBuilder.Start`: installs the intent and clears the
change list; the Go method's error result is always nil. -/
def Start (_c : ChangeSetBuilder) (intent : ServerIntent) : Except String ChangeSetBuilder :=
  .ok { intent := some intent, changes := [] }

/-- Mirrors `ChangeSetBuilder.Finish`: fails without a server-intent;
otherwise seals the accumulated changes into a `ChangeSet`, clears the
change list, and demotes a full-transfer intent to incremental-transfer
for the next exchange.  The returned builder is the post-call state of
the Go receiver. -/
def Finish (c : ChangeSetBuilder) (selector : Selector) :
    Except String (ChangeSet × ChangeSetBuilder) :=
  match c.intent with
  | none => .error "changeset: cannot complete without a server-intent"
  | some intent =>
    let changeSet : ChangeSet :=
      { intentCode := intent.payload.code, selector := selector, changes := c.changes }
    let nextIntent : ServerIntent :=
      if intent.payload.code = .IntentTransferFull then
        { intent with payload := { intent.payload with code := .IntentTransferChanges } }
      else intent
    .ok (changeSet, { intent := some nextIntent, changes := [] })

/-- Mirrors `ChangeSetBuilder.AddPut`. -/
def AddPut (c : ChangeSetBuilder) (kind : ObjectKind) (key : String) (version : Int)
    (object : RawMessage) : ChangeSetBuilder :=
  { c with changes := c.changes ++
      [{ action := .put, kind := kind, key := key, version := version, object := object }] }

/-- Mirrors `ChangeSetBuilder.AddDelete` (the `Object` field is left as
the nil raw message). -/
def AddDelete (c : ChangeSetBuilder) (kind : ObjectKind) (key : String) (version : Int) :
    ChangeSetBuilder :=
  { c with changes := c.changes ++
      [{ action := .delete, kind := kind, key := key, version := version, object := none }] }

end ChangeSetBuilder

/-! ## Status reporting (interfaces.DataSourceState / DataSourceErrorInfo) -/

/-- Mirrors `interfaces.DataSourceState` values used by the two
synchronizers. -/
inductive DataSourceState where
  | valid
  | interrupted
  | off
deriving DecidableEq, Repr

/-- Mirrors `interfaces.DataSourceErrorKind`; `unset` is Go's empty
string value carried by a zero `DataSourceErrorInfo{}`. -/
inductive DataSourceErrorKind where
  | unset
  | unknownError
  | networkError
  | errorResponse
  | invalidData
deriving DecidableEq, Repr

/-- Mirrors `interfaces.DataSourceErrorInfo` (the wall-clock `Time`
field is omitted from the model). -/
structure DataSourceErrorInfo where
  kind : DataSourceErrorKind := .unset
  statusCode : Nat := 0
  message : String := ""
deriving DecidableEq, Repr

/-- One observable side effect of a synchronizer loop, in program
order: a status report, a data-destination call, a firing of the
one-shot ready channel (`close(closeWhenReady)`), or a transport
restart/close. -/
inductive Effect where
  | updateStatus (state : DataSourceState) (info : DataSourceErrorInfo)
  | setBasis (changes : List Change) (selector : Selector) (persist : Bool)
  | applyDelta (changes : List Change) (selector : Selector) (persist : Bool)
  | closeReady
  | restartStream
  | closeStream
deriving DecidableEq, Repr

/-- Counts ready-signal firings in an effect trace. -/
def countReady : List Effect → Nat
  | [] => 0
  | .closeReady :: rest => countReady rest + 1
  | _ :: rest => countReady rest

/-- The status reports contained in an effect trace. -/
def statusUpdates (effs : List Effect) : List Effect :=
  effs.filter fun e => e matches .updateStatus _ _

/-- The data-destination calls contained in an effect trace. -/
def destinationCalls (effs : List Effect) : List Effect :=
  effs.filter fun e => e matches .setBasis _ _ _ | .applyDelta _ _ _

/-! ## Streaming synchronizer event loop (streaming_data_source.go) -/

/-- Modelled from the spec: the `fdv2proto.PutObject` event body
(kind/key/version/object), declared outside src/. -/
structure PutObject where
  kind : ObjectKind
  key : String
  version : Int
  object : RawMessage
deriving DecidableEq, Repr

/-- Modelled from the spec: the `fdv2proto.DeleteObject` event body
(kind/key/version), declared outside src/. -/
structure DeleteObject where
  kind : ObjectKind
  key : String
  version : Int
deriving DecidableEq, Repr

/-- Modelled from the spec: the `fdv2proto.Goodbye` event body, declared
outside src/; the stream loop only logs it. -/
structure Goodbye where
  reason : String
  silent : Bool
  catastrophe : Bool
deriving DecidableEq, Repr

/-- Modelled from the spec: the `fdv2proto.Error` event body, declared
outside src/; the stream loop logs it and discards the accumulator. -/
structure ErrorData where
  payloadID : String
  reason : String
deriving DecidableEq, Repr

deriving instance DecidableEq for Except

/-- One SSE event as seen by `consumeStream`, after the event-name
dispatch and the attempt to JSON-decode its body: `.error msg` stands
for a body whose `json.Unmarshal` failed with that message. -/
inductive SSEEvent where
  | heartbeat
  | serverIntent (body : Except String ServerIntent)
  | putObject (body : Except String PutObject)
  | deleteObject (body : Except String DeleteObject)
  | goodbye (body : Except String Goodbye)
  | errorEvent (body : Except String ErrorData)
  | payloadTransferred (body : Except String Selector)
  | unknown (name : String)
deriving DecidableEq, Repr

/-- The mutable state of one `StreamProcessor` that the event loop
touches: the accumulator, the `isInitialized` flag, and whether
`readyOnce` has already fired. -/
structure StreamState where
  builder : ChangeSetBuilder
  isInitDone : Bool
  readyFired : Bool
deriving DecidableEq, Repr

/-- The stream state at the top of `consumeStream`: fresh builder, not
initialized, ready not yet fired. -/
def initialStreamState : StreamState :=
  { builder := NewChangeSetBuilder, isInitDone := false, readyFired := false }

/-- Mirrors `StreamProcessor.setInitializedAndNotifyClient`: on success
set `isInitialized`; in all cases fire the ready channel through the
`readyOnce` one-shot guard. -/
def setInitializedAndNotifyClient (s : StreamState) (success : Bool) :
    StreamState × List Effect :=
  let s := if success then { s with isInitDone := true } else s
  if s.readyFired then (s, []) else ({ s with readyFired := true }, [.closeReady])

/-- Mirrors the `gotMalformedEvent` closure in `consumeStream`: reset
the accumulator, report Interrupted with Invalid-Data carrying the parse
error's message, mark the event unprocessed and request a restart.
Result: (new builder, effects, processedEvent, shouldRestart). -/
def gotMalformedEvent (err : String) :
    ChangeSetBuilder × List Effect × Bool × Bool :=
  (NewChangeSetBuilder,
   [.updateStatus .interrupted { kind := .invalidData, message := err }],
   false, true)

/-- Mirrors the body of the `case event := <-stream.Events` branch of
`consumeStream` for one event: the event-name switch, followed by the
trailing `Valid` status report when the event was processed and the
restart request when it was malformed.  Returns the new state and the
ordered effect trace of the iteration. -/
def processEvent (s : StreamState) (ev : SSEEvent) : StreamState × List Effect :=
  let step : StreamState × List Effect × Bool × Bool :=
    match ev with
    | .heartbeat => (s, [], true, false)
    | .serverIntent (.error e) =>
      let (b, effs, p, r) := gotMalformedEvent e
      ({ s with builder := b }, effs, p, r)
    | .serverIntent (.ok serverIntent) =>
      if serverIntent.payload.code = .IntentNone then
        let (s', effs) := setInitializedAndNotifyClient s true
        (s', effs, true, false)
      else
        match s.builder.Start serverIntent with
        | .ok b => ({ s with builder := b }, [], true, false)
        | .error e =>
          let (b, effs, p, r) := gotMalformedEvent e
          ({ s with builder := b }, effs, p, r)
    | .putObject (.error e) =>
      let (b, effs, p, r) := gotMalformedEvent e
      ({ s with builder := b }, effs, p, r)
    | .putObject (.ok p) =>
      ({ s with builder := s.builder.AddPut p.kind p.key p.version p.object }, [], true, false)
    | .deleteObject (.error e) =>
      let (b, effs, p, r) := gotMalformedEvent e
      ({ s with builder := b }, effs, p, r)
    | .deleteObject (.ok d) =>
      ({ s with builder := s.builder.AddDelete d.kind d.key d.version }, [], true, false)
    | .goodbye (.error e) =>
      let (b, effs, p, r) := gotMalformedEvent e
      ({ s with builder := b }, effs, p, r)
    | .goodbye (.ok _) => (s, [], true, false)
    | .errorEvent (.error e) =>
      let (b, effs, p, r) := gotMalformedEvent e
      ({ s with builder := b }, effs, p, r)
    | .errorEvent (.ok _) =>
      ({ s with builder := NewChangeSetBuilder }, [], true, false)
    | .payloadTransferred (.error e) =>
      let (b, effs, p, r) := gotMalformedEvent e
      ({ s with builder := b }, effs, p, r)
    | .payloadTransferred (.ok selector) =>
      match s.builder.Finish selector with
      | .error e =>
        let (b, effs, p, r) := gotMalformedEvent e
        ({ s with builder := b }, effs, p, r)
      | .ok (changeSet, b) =>
        let destEffs : List Effect :=
          match changeSet.IntentCode with
          | .IntentTransferFull =>
            [.setBasis changeSet.Changes changeSet.SelectorOf true]
          | .IntentTransferChanges =>
            [.applyDelta changeSet.Changes changeSet.SelectorOf true]
          | .IntentNone => []
        let (s', readyEffs) := setInitializedAndNotifyClient { s with builder := b } true
        (s', destEffs ++ readyEffs, true, false)
    | .unknown _ => (s, [], true, false)
  let (s', effs, processedEvent, shouldRestart) := step
  (s', effs
    ++ (if processedEvent then [.updateStatus .valid {}] else [])
    ++ (if shouldRestart then [.restartStream] else []))

/-- One item delivered to `consumeStream`'s select: either the next SSE
event or a receive on the halt channel. -/
inductive StreamInput where
  | event (ev : SSEEvent)
  | halt
deriving DecidableEq, Repr

/-- Mirrors the `for`/`select` loop of `consumeStream` over a finite
input schedule: events are processed in order; a halt closes the stream
and exits with no further effects. -/
def runConsumeStream (s : StreamState) : List StreamInput → StreamState × List Effect
  | [] => (s, [])
  | .halt :: _ => (s, [.closeStream])
  | .event ev :: rest =>
    let (s', effs) := processEvent s ev
    let (s'', effs') := runConsumeStream s' rest
    (s'', effs ++ effs')

/-! ## Streaming synchronizer: connection setup (`subscribe`) -/

/-- Mirrors the request-URL query construction in
`StreamProcessor.subscribe`, as the list of query parameters of the
final request.  The Go code first appends `"?basis=" + selector.State()`
to the path when the selector is defined (so after `http.NewRequest`
parses the URL its query is the single `basis` parameter), and then,
when `cfg.FilterKey` is non-empty, assigns
`req.URL.RawQuery = url.Values{"filter": {filterKey}}.Encode()`
unconditionally, replacing the whole query with the single `filter`
parameter. -/
def subscribeQueryParams (filterKey : String) (selector : Selector) :
    List (String × String) :=
  let basisParams := if selector.IsDefined then [("basis", selector.State)] else []
  if filterKey ≠ "" then [("filter", filterKey)] else basisParams

/-- The three ways `subscribe` can proceed after building the request:
`http.NewRequest` fails (bad base URI), `es.SubscribeWithRequestAndOptions`
fails, or the stream connects and `consumeStream` runs on a schedule of
inputs. -/
inductive SubscribeOutcome where
  | requestError (msg : String)
  | subscribeError
  | connected (inputs : List StreamInput)
deriving DecidableEq, Repr

/-- Mirrors `StreamProcessor.subscribe` from a fresh processor state: on
a request-construction error it reports Off/Unknown and closes the ready
channel directly (not through `readyOnce`) and returns; on a
subscription error it closes the ready channel directly and returns;
otherwise it runs `consumeStream`. -/
def subscribeRun (o : SubscribeOutcome) : StreamState × List Effect :=
  match o with
  | .requestError msg =>
    (initialStreamState,
     [.updateStatus .off { kind := .unknownError, message := msg }, .closeReady])
  | .subscribeError => (initialStreamState, [.closeReady])
  | .connected inputs => runConsumeStream initialStreamState inputs

/-- Mirrors `StreamProcessor.Close`: through `closeOnce`, the first call
closes the halt channel and reports Off; later calls do nothing; the
returned error is always nil.  The Bool argument and first result are
whether `closeOnce` has already run. -/
def StreamProcessorClose (closed : Bool) : Bool × List Effect × Option String :=
  if closed then (closed, [], none)
  else (true, [.updateStatus .off {}], none)

/-! ## Polling synchronizer (polling_data_source.go) -/

/-- An error returned by `PollingRequester.Request`/`poll`.  Modelled
from the spec: the concrete `httpStatusError` and `malformedJSONError`
types live in datasource helper files outside src/; the spec's error
taxonomy distinguishes explicit HTTP status errors, network-level
errors, and malformed-response errors. -/
inductive PollError where
  | httpStatus (code : Nat)
  | network (msg : String)
  | malformedJSON (msg : String)
deriving DecidableEq, Repr

/-- Modelled from the spec: the recoverability classification applied by
`checkIfErrorIsRecoverableAndLog` (helper outside src/).  Fatal:
authentication/authorization and bad-request/not-found class 4xx
statuses.  Recoverable: rate-limiting (429) and server-side (5xx)
errors, and statuses outside the 4xx class. -/
def isHTTPErrorRecoverable (statusCode : Nat) : Bool :=
  decide (statusCode < 400) || decide (500 ≤ statusCode) || statusCode == 429

/-- The mutable state of one `PollingProcessor` Sync goroutine:
`isInitialized`, the `setInitializedOnce` guard, and the local
`readyOnce` guard. -/
structure PollState where
  isInitDone : Bool
  initOnceDone : Bool
  readyFired : Bool
deriving DecidableEq, Repr

/-- The poll state at the start of `Sync`'s goroutine. -/
def initialPollState : PollState :=
  { isInitDone := false, initOnceDone := false, readyFired := false }

/-- Mirrors the `notifyReady` closure in `PollingProcessor.Sync`: fire
the ready channel through the local `readyOnce` one-shot guard. -/
def notifyReady (s : PollState) : PollState × List Effect :=
  if s.readyFired then (s, []) else ({ s with readyFired := true }, [.closeReady])

/-- Mirrors the intent-code dispatch in `PollingProcessor.poll` (and in
the payload-transferred case of `consumeStream`): full transfer calls
`SetBasis`, incremental transfer calls `ApplyDelta`, none does
nothing; `persist` is always true. -/
def pollDispatch (changeSet : ChangeSet) : List Effect :=
  match changeSet.IntentCode with
  | .IntentTransferFull => [.setBasis changeSet.Changes changeSet.SelectorOf true]
  | .IntentTransferChanges => [.applyDelta changeSet.Changes changeSet.SelectorOf true]
  | .IntentNone => []

/-- Mirrors the `case <-ticker.C` branch of `PollingProcessor.Sync` for
one poll whose requester returned `r`: classify errors into status
reports (terminating the loop on a fatal HTTP status after firing
ready), or on success dispatch the change set to the destination, report
Valid, and on the first success set initialized and fire ready.  Result:
(state, effects, loop exits). -/
def pollTick (s : PollState) (r : Except PollError ChangeSet) :
    PollState × List Effect × Bool :=
  match r with
  | .error (.httpStatus code) =>
    let errorInfo : DataSourceErrorInfo := { kind := .errorResponse, statusCode := code }
    if isHTTPErrorRecoverable code then
      (s, [.updateStatus .interrupted errorInfo], false)
    else
      let (s', readyEffs) := notifyReady s
      (s', .updateStatus .off errorInfo :: readyEffs, true)
  | .error (.network msg) =>
    (s, [.updateStatus .interrupted { kind := .networkError, message := msg }], false)
  | .error (.malformedJSON msg) =>
    (s, [.updateStatus .interrupted { kind := .invalidData, message := msg }], false)
  | .ok changeSet =>
    let (s', readyEffs) :=
      if s.initOnceDone then (s, [])
      else notifyReady { s with isInitDone := true, initOnceDone := true }
    (s', pollDispatch changeSet ++ [.updateStatus .valid {}] ++ readyEffs, false)

/-- One item delivered to the polling loop's select: a receive on the
quit channel or a tick whose poll produced `r`. -/
inductive PollInput where
  | quit
  | tick (r : Except PollError ChangeSet)
deriving DecidableEq, Repr

/-- Mirrors the `for`/`select` loop of `PollingProcessor.Sync` over a
finite input schedule, including the deferred `notifyReady()` that runs
whenever the goroutine returns (on quit or on a fatal poll error). -/
def runPollLoop (s : PollState) : List PollInput → PollState × List Effect
  | [] => (s, [])
  | .quit :: _ => notifyReady s
  | .tick r :: rest =>
    let (s', effs, exitLoop) := pollTick s r
    if exitLoop then
      let (s'', effs') := notifyReady s'
      (s'', effs ++ effs')
    else
      let (s'', effs') := runPollLoop s' rest
      (s'', effs ++ effs')

/-- Mirrors `PollingProcessor.Close`: through `closeOnce`, the first
call closes the quit channel (no status report); later calls do nothing;
the returned error is always nil. -/
def PollingProcessorClose (closed : Bool) : Bool × List Effect × Option String :=
  if closed then (closed, [], none) else (true, [], none)

/-! ## Fetch (DataInitializer capability) -/

/-- Modelled from the spec: `subsystems.Basis` (declared outside src/)
is the snapshot returned by an initializer — the change events, the
resulting selector, and a persistence flag. -/
structure Basis where
  events : List Change
  selector : Selector
  persist : Bool
deriving DecidableEq, Repr

/-- Mirrors `StreamProcessor.Fetch`: unconditionally returns a nil basis
and an error. -/
def StreamProcessorFetch : Option Basis × Option String :=
  (none, some "StreamProcessor does not implement Fetch capability")

/-- Mirrors `PollingProcessor.Fetch`: delegates to the requester and on
success wraps the change set's changes and selector in a `Basis` with
`Persist` true. -/
def PollingProcessorFetch (requestResult : Except String ChangeSet) :
    Option Basis × Option String :=
  match requestResult with
  | .error e => (none, some e)
  | .ok basis =>
    (some { events := basis.Changes, selector := basis.SelectorOf, persist := true }, none)

/-! ## Data system configuration builder (ldcomponents) -/

/-- A `subsystems.ComponentConfigurer` instance as the builder sees it:
an identifying tag plus the outcome its `Build(context)` method would
produce for the fixed client context.  Component values are abstracted
to `Nat` handles, since the builder only threads them through. -/
structure Configurer where
  id : Nat
  result : Except String Nat
deriving DecidableEq, Repr

/-- Mirrors `subsystems.DataStoreMode`. -/
inductive DataStoreMode where
  | read
  | readWrite
deriving DecidableEq, Repr

/-- Mirrors `subsystems.SynchronizersConfiguration` with abstract
component handles. -/
structure SynchronizersConfiguration where
  primary : Option Nat := none
  secondary : Option Nat := none
deriving DecidableEq, Repr

/-- Mirrors `subsystems.DataSystemConfiguration` with abstract component
handles (`store = none` is Go's nil store of the zero value). -/
structure DataSystemConfiguration where
  store : Option Nat := none
  storeMode : DataStoreMode := .read
  initializerList : List Nat := []
  synchronizers : SynchronizersConfiguration := {}
deriving DecidableEq, Repr

/-- Mirrors `ldcomponents.DataSystemConfigurationBuilder`: optional
configurers for the store and the two synchronizers, a list of
initializer configurers (Go nil entries become `none`), and the embedded
starting `config` (always the zero value in the source). -/
structure DataSystemConfigurationBuilder where
  storeBuilder : Option Configurer := none
  storeMode : DataStoreMode := .read
  initializerBuilders : List (Option Configurer) := []
  primarySyncBuilder : Option Configurer := none
  secondarySyncBuilder : Option Configurer := none
  config : DataSystemConfiguration := {}
deriving DecidableEq, Repr

/-- The result of `Build` instrumented with its construction trace:
the returned configuration, the returned error (none = nil), and the
ids of the configurers whose `Build` was invoked, in call order. -/
structure BuildOutcome where
  conf : DataSystemConfiguration
  err : Option String
  trace : List Nat
deriving DecidableEq, Repr

/-- The configuration error message returned by `Build` when a
secondary synchronizer is configured without a primary. -/
def secondaryWithoutPrimaryMsg : String :=
  "cannot have a secondary synchronizer without a primary synchronizer"

/-- Mirrors the initializer loop of `Build`: a nil entry aborts with
"initializer i is nil"; otherwise each configurer is constructed in list
order, the first construction error aborting with that error. -/
def buildInitializerList (conf : DataSystemConfiguration) (trace : List Nat) (i : Nat) :
    List (Option Configurer) → DataSystemConfiguration × Option String × List Nat
  | [] => (conf, none, trace)
  | none :: _ => ({}, some ("initializer " ++ toString i ++ " is nil"), trace)
  | some c :: rest =>
    match c.result with
    | .error e => ({}, some e, trace ++ [c.id])
    | .ok v =>
      buildInitializerList { conf with initializerList := conf.initializerList ++ [v] }
        (trace ++ [c.id]) (i + 1) rest

/-- Mirrors the final block of `Build`: construct the secondary
synchronizer if configured, aborting with its error. -/
def buildSecondaryStage (scb : Option Configurer) (conf : DataSystemConfiguration)
    (trace : List Nat) : BuildOutcome :=
  match scb with
  | none => { conf := conf, err := none, trace := trace }
  | some c =>
    match c.result with
    | .error e => { conf := {}, err := some e, trace := trace ++ [c.id] }
    | .ok v =>
      { conf := { conf with synchronizers := { conf.synchronizers with secondary := some v } },
        err := none, trace := trace ++ [c.id] }

/-- Mirrors the primary-synchronizer block of `Build` and its
continuation: construct the primary if configured (aborting with its
error), then the secondary. -/
def buildPrimaryStage (pb scb : Option Configurer) (conf : DataSystemConfiguration)
    (trace : List Nat) : BuildOutcome :=
  match pb with
  | none => buildSecondaryStage scb conf trace
  | some c =>
    match c.result with
    | .error e => { conf := {}, err := some e, trace := trace ++ [c.id] }
    | .ok v =>
      buildSecondaryStage scb
        { conf with synchronizers := { conf.synchronizers with primary := some v } }
        (trace ++ [c.id])

/-- Mirrors the initializer loop of `Build` and its continuation: run
the initializer constructions (aborting with the first error), then the
synchronizer stages. -/
def buildInitStage (ib : List (Option Configurer)) (pb scb : Option Configurer)
    (conf : DataSystemConfiguration) (trace : List Nat) : BuildOutcome :=
  match buildInitializerList conf trace 0 ib with
  | (_, some e, trace') => { conf := {}, err := some e, trace := trace' }
  | (conf', none, trace') => buildPrimaryStage pb scb conf' trace'

/-- Mirrors `DataSystemConfigurationBuilder.Build`, instrumented with
the trace of configurer invocations: validate the secondary-without-
primary case first, then construct the store, the initializers in order,
the primary synchronizer and the secondary synchronizer, aborting at the
first failure with that component's error and the zero configuration. -/
def DataSystemConfigurationBuilder.Build (d : DataSystemConfigurationBuilder) : BuildOutcome :=
  if d.secondarySyncBuilder.isSome && d.primarySyncBuilder.isNone then
    { conf := {}, err := some secondaryWithoutPrimaryMsg, trace := [] }
  else
    match d.storeBuilder with
    | none =>
      buildInitStage d.initializerBuilders d.primarySyncBuilder d.secondarySyncBuilder
        d.config []
    | some c =>
      match c.result with
      | .error e => { conf := {}, err := some e, trace := [c.id] }
      | .ok v =>
        buildInitStage d.initializerBuilders d.primarySyncBuilder d.secondarySyncBuilder
          { d.config with store := some v } [c.id]

/-- Follows the claim's words, not the source: the configurers of a
builder in the order the claim says they are constructed — store, then
each initializer in list order, then primary, then secondary. -/
def claimedBuildOrder (d : DataSystemConfigurationBuilder) : List Configurer :=
  d.storeBuilder.toList ++ d.initializerBuilders.reduceOption
    ++ d.primarySyncBuilder.toList ++ d.secondarySyncBuilder.toList

/-- Follows the claim's words, not the source: the construction trace
the claim predicts — every configurer up to and including the first
failing one. -/
def claimedTrace : List Configurer → List Nat
  | [] => []
  | c :: rest =>
    match c.result with
    | .ok _ => c.id :: claimedTrace rest
    | .error _ => [c.id]

/-- Follows the claim's words, not the source: the error the claim
predicts — the first construction failure, if any. -/
def claimedErr : List Configurer → Option String
  | [] => none
  | c :: rest =>
    match c.result with
    | .ok _ => claimedErr rest
    | .error e => some e

/-! ## Derived definitions used to state the claims -/

/-- The JSON parse failure of an event's body, when there is one
(heartbeats and unknown events carry no body to parse). -/
def parseFailure : SSEEvent → Option String
  | .serverIntent (.error e) => some e
  | .putObject (.error e) => some e
  | .deleteObject (.error e) => some e
  | .goodbye (.error e) => some e
  | .errorEvent (.error e) => some e
  | .payloadTransferred (.error e) => some e
  | _ => none

/-- One call to a `ChangeSetBuilder` add method. -/
inductive AddCmd where
  | putCmd (kind : ObjectKind) (key : String) (version : Int) (object : RawMessage)
  | delCmd (kind : ObjectKind) (key : String) (version : Int)
deriving DecidableEq, Repr

/-- Runs one add command on a builder. -/
def applyAdd (b : ChangeSetBuilder) : AddCmd → ChangeSetBuilder
  | .putCmd kind key version object => b.AddPut kind key version object
  | .delCmd kind key version => b.AddDelete kind key version

/-- Runs a list of add commands on a builder, in order. -/
def applyAdds (b : ChangeSetBuilder) (cmds : List AddCmd) : ChangeSetBuilder :=
  cmds.foldl applyAdd b

/-- The `Change` record an add command appends. -/
def cmdChange : AddCmd → Change
  | .putCmd kind key version object =>
    { action := .put, kind := kind, key := key, version := version, object := object }
  | .delCmd kind key version =>
    { action := .delete, kind := kind, key := key, version := version, object := none }

/-- The change appended for key A, version 1, in the full-transfer
scenario. -/
def changeA : Change :=
  { action := .put, kind := "flag", key := "A", version := 1, object := some "objA" }

/-- The change appended for key B, version 1, in the full-transfer
scenario. -/
def changeB : Change :=
  { action := .put, kind := "flag", key := "B", version := 1, object := some "objB" }

/-- The event sequence of the full-transfer scenario: a full-transfer
server intent, put-object events for keys A and B at version 1, and a
payload-transferred event carrying selector (s1, 1). -/
def fullTransferScenario : List SSEEvent :=
  [.serverIntent (.ok { payload := { code := .IntentTransferFull } }),
   .putObject (.ok { kind := "flag", key := "A", version := 1, object := some "objA" }),
   .putObject (.ok { kind := "flag", key := "B", version := 1, object := some "objB" }),
   .payloadTransferred (.ok (NewSelector "s1" 1))]

/-! ## Helper lemmas -/

/-- Counting ready firings distributes over trace concatenation. -/
theorem countReady_append (a b : List Effect) :
    countReady (a ++ b) = countReady a + countReady b := by
  induction a with
  | nil => simp [countReady]
  | cons e rest ih => cases e <;> (simp [countReady, ih]; try omega)

/-- Running add commands preserves the pending intent and appends the
corresponding changes in order. -/
theorem applyAdds_spec (b : ChangeSetBuilder) (cmds : List AddCmd) :
    applyAdds b cmds = { intent := b.intent, changes := b.changes ++ cmds.map cmdChange } := by
  induction cmds generalizing b with
  | nil => simp [applyAdds]
  | cons c rest ih =>
    have hcons : applyAdds b (c :: rest) = applyAdds (applyAdd b c) rest := rfl
    rw [hcons, ih]
    cases c <;>
      simp [applyAdd, ChangeSetBuilder.AddPut, ChangeSetBuilder.AddDelete, cmdChange]

/-! ## Claim theorems -/

/-- Claim C10: `StreamProcessor.Fetch` always returns a nil basis and a
non-nil error (the streaming synchronizer never serves as a one-shot
initializer), while `PollingProcessor.Fetch` on a successful request
returns a basis whose events and selector come from the requester's
change set with the persist flag always true, and propagates a request
error as a nil basis with that error. -/
theorem claim_C10_fetch :
    StreamProcessorFetch
      = (none, some "StreamProcessor does not implement Fetch capability")
    ∧ (∀ cs : ChangeSet, PollingProcessorFetch (.ok cs)
        = (some { events := cs.Changes, selector := cs.SelectorOf, persist := true }, none))
    ∧ (∀ e : String, PollingProcessorFetch (.error e) = (none, some e)) :=
  ⟨rfl, fun _ => rfl, fun _ => rfl⟩

/-- Claim C1 counterexample: with filter key "f" and the defined
selector ("s1", 1), `subscribe` builds a request whose query is only the
filter parameter — the basis parameter is absent, refuting the claim
that such a configuration carries both parameters. -/
theorem claim_C1_counterexample :
    (NewSelector "s1" 1).IsDefined = true
    ∧ subscribeQueryParams "f" (NewSelector "s1" 1) = [("filter", "f")]
    ∧ ("basis", "s1") ∉ subscribeQueryParams "f" (NewSelector "s1" 1) := by
  decide

/-- Claim C1 (amended): when no filter key is configured, the initial
connection request carries the basis parameter with the selector's state
exactly when the selector is defined; when a filter key is configured,
the later assignment of the request's raw query replaces the basis, so
the request carries only the filter parameter. -/
theorem claim_C1_basis_query (filterKey : String) (selector : Selector) :
    (filterKey = "" →
      subscribeQueryParams filterKey selector
        = if selector.IsDefined then [("basis", selector.State)] else [])
    ∧ (filterKey ≠ "" →
      subscribeQueryParams filterKey selector = [("filter", filterKey)]) := by
  constructor <;> intro h <;> simp [subscribeQueryParams, h]

/-- Witness for C1 (amended) at concrete inputs: an empty filter key
with defined selector ("s1", 1) yields the basis parameter, and filter
key "f" yields only the filter parameter. -/
theorem claim_C1_basis_query_witness :
    subscribeQueryParams "" (NewSelector "s1" 1) = [("basis", "s1")]
    ∧ subscribeQueryParams "f" (NewSelector "s1" 1) = [("filter", "f")] := by
  constructor
  · have h := (claim_C1_basis_query "" (NewSelector "s1" 1)).1 rfl
    rw [h]; decide
  · exact (claim_C1_basis_query "f" (NewSelector "s1" 1)).2 (by decide)

/-- Claim C5: a well-formed server-intent event with payload code none
immediately marks the processor initialized and fires the ready signal
through the one-shot guard, makes no data-destination call, leaves the
accumulator untouched, and reports Valid — all within this single event,
without waiting for a payload-transferred event. -/
theorem claim_C5_intent_none (s : StreamState) :
    processEvent s (.serverIntent (.ok { payload := { code := .IntentNone } }))
      = ({ s with isInitDone := true, readyFired := true },
         (if s.readyFired then [] else [.closeReady]) ++ [.updateStatus .valid {}]) := by
  cases s with
  | mk b initDone ready =>
    cases ready <;> simp [processEvent, setInitializedAndNotifyClient]

/-- Claim C3: an event whose JSON body fails to parse (on any event type
carrying a body) resets the in-progress accumulator to a fresh builder,
reports Interrupted with error kind Invalid-Data carrying the parse
error, reports no Valid status, makes no destination call, and requests
a stream restart. -/
theorem claim_C3_malformed_event (s : StreamState) (ev : SSEEvent) (e : String)
    (h : parseFailure ev = some e) :
    processEvent s ev
      = ({ s with builder := NewChangeSetBuilder },
         [.updateStatus .interrupted { kind := .invalidData, message := e },
          .restartStream])
    ∧ destinationCalls (processEvent s ev).2 = []
    ∧ Effect.updateStatus .valid {} ∉ (processEvent s ev).2
    ∧ Effect.restartStream ∈ (processEvent s ev).2 := by
  have heq : processEvent s ev
      = ({ s with builder := NewChangeSetBuilder },
         [.updateStatus .interrupted { kind := .invalidData, message := e },
          .restartStream]) := by
    cases ev with
    | heartbeat => simp [parseFailure] at h
    | serverIntent body =>
      cases body with
      | error msg =>
        simp [parseFailure] at h
        subst h; simp [processEvent, gotMalformedEvent]
      | ok v => simp [parseFailure] at h
    | putObject body =>
      cases body with
      | error msg =>
        simp [parseFailure] at h
        subst h; simp [processEvent, gotMalformedEvent]
      | ok v => simp [parseFailure] at h
    | deleteObject body =>
      cases body with
      | error msg =>
        simp [parseFailure] at h
        subst h; simp [processEvent, gotMalformedEvent]
      | ok v => simp [parseFailure] at h
    | goodbye body =>
      cases body with
      | error msg =>
        simp [parseFailure] at h
        subst h; simp [processEvent, gotMalformedEvent]
      | ok v => simp [parseFailure] at h
    | errorEvent body =>
      cases body with
      | error msg =>
        simp [parseFailure] at h
        subst h; simp [processEvent, gotMalformedEvent]
      | ok v => simp [parseFailure] at h
    | payloadTransferred body =>
      cases body with
      | error msg =>
        simp [parseFailure] at h
        subst h; simp [processEvent, gotMalformedEvent]
      | ok v => simp [parseFailure] at h
    | unknown name => simp [parseFailure] at h
  refine ⟨heq, ?_, ?_, ?_⟩ <;> rw [heq] <;> simp [destinationCalls]

/-- Witness for C3: a put-object event with an unparseable body, from
the initial stream state. -/
theorem claim_C3_malformed_event_witness :
    processEvent initialStreamState (.putObject (.error "bad json"))
      = ({ initialStreamState with builder := NewChangeSetBuilder },
         [.updateStatus .interrupted { kind := .invalidData, message := "bad json" },
          .restartStream]) :=
  (claim_C3_malformed_event initialStreamState (.putObject (.error "bad json"))
    "bad json" rfl).1

/-- Claim C7: after `Start` with a full-transfer intent,
`Finish(selector)` seals the accumulated changes into a full-transfer
change set and clears the change list; a second `Finish(selector')`
without an intervening `Start` succeeds and yields an
incremental-transfer change set containing only the changes added after
the first `Finish`; and `Finish` on a builder never given an intent
returns an error and no change set. -/
theorem claim_C7_builder_finish (i : ServerIntent) (sel sel' : Selector)
    (adds1 adds2 : List AddCmd) (h : i.payload.code = .IntentTransferFull) :
    NewChangeSetBuilder.Finish sel
      = .error "changeset: cannot complete without a server-intent"
    ∧ ∃ b1, NewChangeSetBuilder.Start i = .ok b1
        ∧ ∃ cs1 b2, (applyAdds b1 adds1).Finish sel = .ok (cs1, b2)
          ∧ cs1.IntentCode = .IntentTransferFull
          ∧ cs1.Changes = adds1.map cmdChange
          ∧ cs1.SelectorOf = sel
          ∧ b2.changes = []
          ∧ ∃ cs2 b3, (applyAdds b2 adds2).Finish sel' = .ok (cs2, b3)
            ∧ cs2.IntentCode = .IntentTransferChanges
            ∧ cs2.Changes = adds2.map cmdChange
            ∧ cs2.SelectorOf = sel' := by
  obtain ⟨⟨code⟩⟩ := i
  have hc : code = .IntentTransferFull := h
  subst hc
  refine ⟨rfl,
    { intent := some { payload := { code := .IntentTransferFull } }, changes := [] }, rfl, ?_⟩
  rw [applyAdds_spec]
  refine ⟨{ intentCode := .IntentTransferFull, changes := adds1.map cmdChange, selector := sel },
    { intent := some { payload := { code := .IntentTransferChanges } }, changes := [] },
    ?_, rfl, rfl, rfl, rfl, ?_⟩
  · simp [ChangeSetBuilder.Finish]
  · rw [applyAdds_spec]
    refine
      ⟨{ intentCode := .IntentTransferChanges
         changes := adds2.map cmdChange
         selector := sel' },
       { intent := some { payload := { code := .IntentTransferChanges } }, changes := [] },
       ?_, rfl, rfl, rfl⟩
    simp [ChangeSetBuilder.Finish]

/-- Witness for C7 at a concrete full-transfer intent, selectors
(s1, 1) and (s2, 2), one put command in the first exchange and none in
the second. -/
theorem claim_C7_builder_finish_witness :
    NewChangeSetBuilder.Finish (NewSelector "s1" 1)
      = .error "changeset: cannot complete without a server-intent" :=
  (claim_C7_builder_finish { payload := { code := .IntentTransferFull } }
    (NewSelector "s1" 1) (NewSelector "s2" 2)
    [.putCmd "flag" "A" 1 (some "objA")] [] rfl).1

/-- Claim C4: running the full-transfer scenario (server-intent full,
put A v1, put B v1, payload-transferred (s1, 1)) from the initial state
calls `SetBasis` exactly once with changes [put A v1, put B v1], the
selector (s1, 1) and persist true, makes no `ApplyDelta` call, and then
marks the processor initialized and fires the ready signal; and in
general a sealed change set is dispatched by intent code — full transfer
to `SetBasis`, incremental transfer to `ApplyDelta`, none to neither. -/
theorem claim_C4_full_transfer_dispatch :
    (runConsumeStream initialStreamState (fullTransferScenario.map StreamInput.event)
      = ({ builder := ⟨some ⟨⟨.IntentTransferChanges⟩⟩, []⟩,
           isInitDone := true, readyFired := true },
         [.updateStatus .valid {}, .updateStatus .valid {}, .updateStatus .valid {},
          .setBasis [changeA, changeB] (NewSelector "s1" 1) true, .closeReady,
          .updateStatus .valid {}])
      ∧ destinationCalls (runConsumeStream initialStreamState
          (fullTransferScenario.map StreamInput.event)).2
        = [.setBasis [changeA, changeB] (NewSelector "s1" 1) true])
    ∧ ∀ (s : StreamState) (i : ServerIntent) (sel : Selector),
        s.builder.intent = some i →
        destinationCalls (processEvent s (.payloadTransferred (.ok sel))).2
          = match i.payload.code with
            | .IntentTransferFull => [.setBasis s.builder.changes sel true]
            | .IntentTransferChanges => [.applyDelta s.builder.changes sel true]
            | .IntentNone => [] := by
  refine ⟨⟨by decide, by decide⟩, ?_⟩
  rintro ⟨⟨bi, bc⟩, initDone, ready⟩ i sel h
  have hbi : bi = some i := h
  subst hbi
  obtain ⟨⟨code⟩⟩ := i
  cases code <;> cases ready <;>
    simp [processEvent, ChangeSetBuilder.Finish, setInitializedAndNotifyClient,
      destinationCalls, ChangeSet.IntentCode, ChangeSet.Changes, ChangeSet.SelectorOf]

/-- Witness for C4's dispatch clause at a concrete state holding one
accumulated change under a full-transfer intent. -/
theorem claim_C4_full_transfer_dispatch_witness :
    destinationCalls (processEvent
      { builder := ⟨some ⟨⟨.IntentTransferFull⟩⟩, [changeA]⟩,
        isInitDone := false, readyFired := false }
      (.payloadTransferred (.ok (NewSelector "s1" 1)))).2
      = [.setBasis [changeA] (NewSelector "s1" 1) true] :=
  claim_C4_full_transfer_dispatch.2 _ _ _ rfl

/-- Claim C6: a poll failing with a fatal HTTP status (401 is fatal)
reports Off with Error-Response carrying that status code, fires the
ready signal if it has not already fired, and terminates the loop
without processing any further input; a poll failing with a recoverable
HTTP status (500 is recoverable) reports Interrupted with Error-Response
carrying that status code and the loop continues with the remaining
schedule. -/
theorem claim_C6_polling_http_status (s : PollState) (code : Nat)
    (rest : List PollInput) :
    isHTTPErrorRecoverable 401 = false
    ∧ isHTTPErrorRecoverable 500 = true
    ∧ (isHTTPErrorRecoverable code = false →
        runPollLoop s (.tick (.error (.httpStatus code)) :: rest)
          = ((notifyReady s).1,
             .updateStatus .off { kind := .errorResponse, statusCode := code }
               :: (notifyReady s).2))
    ∧ (isHTTPErrorRecoverable code = true →
        runPollLoop s (.tick (.error (.httpStatus code)) :: rest)
          = ((runPollLoop s rest).1,
             .updateStatus .interrupted { kind := .errorResponse, statusCode := code }
               :: (runPollLoop s rest).2)) := by
  refine ⟨by decide, by decide, ?_, ?_⟩ <;> intro h
  · cases hs : s.readyFired <;> simp [runPollLoop, pollTick, h, hs, notifyReady]
  · simp [runPollLoop, pollTick, h]

/-- Witness for C6 at the fresh poll state: a 401 terminates with
Off(401) and a ready firing; a 500 reports Interrupted(500) and leaves
the loop state unchanged. -/
theorem claim_C6_polling_http_status_witness :
    runPollLoop initialPollState [.tick (.error (.httpStatus 401))]
      = ({ isInitDone := false, initOnceDone := false, readyFired := true },
         [.updateStatus .off { kind := .errorResponse, statusCode := 401 }, .closeReady])
    ∧ runPollLoop initialPollState [.tick (.error (.httpStatus 500))]
      = (initialPollState,
         [.updateStatus .interrupted { kind := .errorResponse, statusCode := 500 }]) := by
  constructor
  · have h := (claim_C6_polling_http_status initialPollState 401 []).2.2.1 (by decide)
    rw [h]; decide
  · have h := (claim_C6_polling_http_status initialPollState 500 []).2.2.2 (by decide)
    rw [h]; decide

/-- Claim C9: for both synchronizers every `Close` call returns nil and
every call after the first produces no effect at all; the first
streaming `Close` produces exactly one status update, the final Off
transition, and the first polling `Close` produces none; and once the
halt/quit signal is received the loop exits without emitting any
further status update. -/
theorem claim_C9_close_idempotent (s : StreamState) (ps : PollState)
    (rest : List StreamInput) (prest : List PollInput) :
    StreamProcessorClose false = (true, [.updateStatus .off {}], none)
    ∧ StreamProcessorClose true = (true, [], none)
    ∧ PollingProcessorClose false = (true, [], none)
    ∧ PollingProcessorClose true = (true, [], none)
    ∧ statusUpdates (runConsumeStream s (.halt :: rest)).2 = []
    ∧ statusUpdates (runPollLoop ps (.quit :: prest)).2 = [] := by
  refine ⟨rfl, rfl, rfl, rfl, ?_, ?_⟩
  · simp [runConsumeStream, statusUpdates]
  · cases hr : ps.readyFired <;> simp [runPollLoop, notifyReady, hr, statusUpdates]

/-- The one-shot firing in `setInitializedAndNotifyClient` exactly
accounts for the ready-flag transition. -/
theorem setInit_ready_count (s : StreamState) (b : Bool) :
    countReady (setInitializedAndNotifyClient s b).2 + s.readyFired.toNat
      = (setInitializedAndNotifyClient s b).1.readyFired.toNat := by
  cases s with
  | mk bu i r => cases r <;> cases b <;> simp [setInitializedAndNotifyClient, countReady]

/-- Every event iteration fires the ready signal exactly when it flips
the ready flag from false to true; the flag never resets. -/
theorem processEvent_ready_count (s : StreamState) (ev : SSEEvent) :
    countReady (processEvent s ev).2 + s.readyFired.toNat
      = (processEvent s ev).1.readyFired.toNat := by
  cases s with
  | mk bu initDone ready =>
    cases ev with
    | heartbeat => cases ready <;> simp [processEvent, countReady]
    | serverIntent body =>
      cases body with
      | error e => cases ready <;> simp [processEvent, gotMalformedEvent, countReady]
      | ok v =>
        obtain ⟨⟨code⟩⟩ := v
        cases code <;> cases ready <;>
          simp [processEvent, setInitializedAndNotifyClient, ChangeSetBuilder.Start,
            countReady]
    | putObject body =>
      cases body <;> cases ready <;>
        simp [processEvent, gotMalformedEvent, countReady]
    | deleteObject body =>
      cases body <;> cases ready <;>
        simp [processEvent, gotMalformedEvent, countReady]
    | goodbye body =>
      cases body <;> cases ready <;>
        simp [processEvent, gotMalformedEvent, countReady]
    | errorEvent body =>
      cases body <;> cases ready <;>
        simp [processEvent, gotMalformedEvent, countReady]
    | payloadTransferred body =>
      cases body with
      | error e => cases ready <;> simp [processEvent, gotMalformedEvent, countReady]
      | ok sel =>
        obtain ⟨bi, bc⟩ := bu
        cases bi with
        | none =>
          cases ready <;>
            simp [processEvent, ChangeSetBuilder.Finish, gotMalformedEvent, countReady]
        | some intent =>
          obtain ⟨⟨code⟩⟩ := intent
          cases code <;> cases ready <;>
            simp [processEvent, ChangeSetBuilder.Finish, setInitializedAndNotifyClient,
              countReady, ChangeSet.IntentCode, ChangeSet.Changes, ChangeSet.SelectorOf,
              countReady_append]
    | unknown name => cases ready <;> simp [processEvent, countReady]

/-- Over any input schedule, `consumeStream`'s ready firings exactly
account for the ready-flag transition. -/
theorem runConsumeStream_ready_count (inputs : List StreamInput) (s : StreamState) :
    countReady (runConsumeStream s inputs).2 + s.readyFired.toNat
      = (runConsumeStream s inputs).1.readyFired.toNat := by
  induction inputs generalizing s with
  | nil => simp [runConsumeStream, countReady]
  | cons i rest ih =>
    cases i with
    | halt => simp [runConsumeStream, countReady]
    | event ev =>
      rcases hpe : processEvent s ev with ⟨s1, effs1⟩
      have h1 := processEvent_ready_count s ev
      rw [hpe] at h1
      have h2 := ih s1
      rcases hrc : runConsumeStream s1 rest with ⟨s2, effs2⟩
      rw [hrc] at h2
      dsimp only at h1 h2
      simp only [runConsumeStream, hpe, hrc, countReady_append]
      omega

/-- The one-shot firing in the polling loop's `notifyReady` exactly
accounts for the ready-flag transition. -/
theorem notifyReady_ready_count (s : PollState) :
    countReady (notifyReady s).2 + s.readyFired.toNat
      = (notifyReady s).1.readyFired.toNat := by
  cases s with
  | mk a b r => cases r <;> simp [notifyReady, countReady]

/-- Destination dispatch emits no ready firing. -/
theorem pollDispatch_ready_count (cs : ChangeSet) :
    countReady (pollDispatch cs) = 0 := by
  rcases cs with ⟨code, changes, sel⟩
  cases code <;> simp [pollDispatch, countReady, ChangeSet.IntentCode, ChangeSet.Changes,
    ChangeSet.SelectorOf]

/-- Every poll iteration fires the ready signal exactly when it flips
the ready flag from false to true. -/
theorem pollTick_ready_count (s : PollState) (r : Except PollError ChangeSet) :
    countReady (pollTick s r).2.1 + s.readyFired.toNat
      = (pollTick s r).1.readyFired.toNat := by
  cases r with
  | error pe =>
    cases pe with
    | httpStatus code =>
      by_cases h : isHTTPErrorRecoverable code = true
      · simp [pollTick, h, countReady]
      · rcases hn : notifyReady s with ⟨s', effs⟩
        have hnc := notifyReady_ready_count s
        rw [hn] at hnc
        dsimp only at hnc
        simp only [Bool.not_eq_true] at h
        simp [pollTick, h, hn, countReady]
        omega
    | network msg => simp [pollTick, countReady]
    | malformedJSON msg => simp [pollTick, countReady]
  | ok cs =>
    cases hio : s.initOnceDone <;>
      cases hr : s.readyFired <;>
        simp [pollTick, hio, hr, notifyReady, countReady_append, countReady,
          pollDispatch_ready_count]

/-- Over any input schedule, including the deferred `notifyReady` at
loop exit, the polling loop's ready firings exactly account for the
ready-flag transition. -/
theorem runPollLoop_ready_count (inputs : List PollInput) (s : PollState) :
    countReady (runPollLoop s inputs).2 + s.readyFired.toNat
      = (runPollLoop s inputs).1.readyFired.toNat := by
  induction inputs generalizing s with
  | nil => simp [runPollLoop, countReady]
  | cons i rest ih =>
    cases i with
    | quit => exact notifyReady_ready_count s
    | tick r =>
      rcases hpt : pollTick s r with ⟨s1, effs1, exitLoop⟩
      have h1 := pollTick_ready_count s r
      rw [hpt] at h1
      cases exitLoop with
      | true =>
        rcases hn : notifyReady s1 with ⟨s2, effs2⟩
        have h2 := notifyReady_ready_count s1
        rw [hn] at h2
        dsimp only at h1 h2
        simp [runPollLoop, hpt, hn, countReady_append]
        omega
      | false =>
        have h2 := ih s1
        rcases hrl : runPollLoop s1 rest with ⟨s2, effs2⟩
        rw [hrl] at h2
        dsimp only at h1 h2
        simp [runPollLoop, hpt, hrl, countReady_append]
        omega

/-- Claim C8 counterexample: on the fatal connection-setup error path
(`http.NewRequest` failure), `subscribe` fires the ready signal by
closing the channel directly while the `readyOnce` guard state is left
unset — so this trigger path does not go through the one-shot guard,
refuting the claim's conjunct that every trigger path does. -/
theorem claim_C8_ready_bypass_counterexample :
    countReady (subscribeRun (.requestError "bad base URI")).2 = 1
    ∧ (subscribeRun (.requestError "bad base URI")).1.readyFired = false := by
  decide

/-- Claim C8 (amended): for every execution of either synchronizer the
ready signal fires at most once.  Every trigger path inside the event
and poll loops (first successful snapshot application, server-intent
none, fatal HTTP error, close during startup) goes through a one-shot
guard — formalized by the firings exactly accounting for the guard
flag's false-to-true transition, from any loop state.  The two fatal
connection-setup error paths in `subscribe` instead close the channel
directly, bypassing the guard, but each produces exactly one firing and
returns before the consume loop runs, so repeated trigger attempts still
collapse to a single observable firing. -/
theorem claim_C8_ready_at_most_once_amended (o : SubscribeOutcome)
    (inputs : List PollInput) (sinputs : List StreamInput)
    (s : StreamState) (ps : PollState) :
    countReady (subscribeRun o).2 ≤ 1
    ∧ countReady (runPollLoop initialPollState inputs).2 ≤ 1
    ∧ countReady (runConsumeStream s sinputs).2 + s.readyFired.toNat
        = (runConsumeStream s sinputs).1.readyFired.toNat
    ∧ countReady (runPollLoop ps inputs).2 + ps.readyFired.toNat
        = (runPollLoop ps inputs).1.readyFired.toNat
    ∧ (∀ msg, subscribeRun (.requestError msg)
        = (initialStreamState,
           [.updateStatus .off { kind := .unknownError, message := msg }, .closeReady]))
    ∧ subscribeRun .subscribeError = (initialStreamState, [.closeReady]) := by
  refine ⟨?_, ?_, runConsumeStream_ready_count sinputs s, runPollLoop_ready_count inputs ps,
    fun msg => rfl, rfl⟩
  · cases o with
    | requestError msg => simp [subscribeRun, countReady]
    | subscribeError => simp [subscribeRun, countReady]
    | connected cinputs =>
      have h := runConsumeStream_ready_count cinputs initialStreamState
      have hle : ((runConsumeStream initialStreamState cinputs).1.readyFired).toNat ≤ 1 := by
        cases (runConsumeStream initialStreamState cinputs).1.readyFired <;> simp
      simp only [subscribeRun]
      simp only [show initialStreamState.readyFired.toNat = 0 from rfl] at h
      omega
  · have h := runPollLoop_ready_count inputs initialPollState
    have hle : ((runPollLoop initialPollState inputs).1.readyFired).toNat ≤ 1 := by
      cases (runPollLoop initialPollState inputs).1.readyFired <;> simp
    simp only [show initialPollState.readyFired.toNat = 0 from rfl] at h
    omega

/-- First-failure error of a concatenation of configurer sequences. -/
theorem claimedErr_append (xs ys : List Configurer) :
    claimedErr (xs ++ ys)
      = match claimedErr xs with
        | some e => some e
        | none => claimedErr ys := by
  induction xs with
  | nil => simp [claimedErr]
  | cons c rest ih =>
    rcases c with ⟨cid, res⟩
    cases res <;> simp [claimedErr, ih]

/-- Construction trace of a concatenation of configurer sequences. -/
theorem claimedTrace_append (xs ys : List Configurer) :
    claimedTrace (xs ++ ys)
      = match claimedErr xs with
        | some _ => claimedTrace xs
        | none => claimedTrace xs ++ claimedTrace ys := by
  induction xs with
  | nil => simp [claimedTrace, claimedErr]
  | cons c rest ih =>
    rcases c with ⟨cid, res⟩
    cases res with
    | error e => simp [claimedTrace, claimedErr]
    | ok v =>
      simp only [List.cons_append, claimedTrace, claimedErr, List.append_eq]
      rw [ih]
      cases claimedErr rest <;> simp

/-- The initializer loop invokes exactly the claimed prefix of the
initializer configurers and surfaces the claimed first failure. -/
theorem buildInitializerList_spec (l : List (Option Configurer)) :
    ∀ (conf : DataSystemConfiguration) (trace : List Nat) (i : Nat),
      (∀ b ∈ l, b.isSome = true) →
      (buildInitializerList conf trace i l).2.1 = claimedErr l.reduceOption
      ∧ (buildInitializerList conf trace i l).2.2 = trace ++ claimedTrace l.reduceOption := by
  induction l with
  | nil =>
    intro conf trace i _
    simp [buildInitializerList, claimedErr, claimedTrace, List.reduceOption]
  | cons b rest ih =>
    intro conf trace i h
    cases b with
    | none =>
      have := h none (by simp)
      simp at this
    | some c =>
      rcases c with ⟨cid, res⟩
      cases res with
      | error e =>
        simp [buildInitializerList, List.reduceOption, claimedErr, claimedTrace]
      | ok v =>
        have hrest : ∀ b ∈ rest, b.isSome = true := fun b hb => h b (by simp [hb])
        have hih := ih { conf with initializerList := conf.initializerList ++ [v] }
          (trace ++ [cid]) (i + 1) hrest
        simp [buildInitializerList, List.reduceOption, claimedErr, claimedTrace,
          hih.1, hih.2]

/-- The secondary stage invokes exactly the claimed configurers and
surfaces the claimed first failure. -/
theorem buildSecondaryStage_spec (scb : Option Configurer)
    (conf : DataSystemConfiguration) (trace : List Nat) :
    (buildSecondaryStage scb conf trace).err = claimedErr scb.toList
    ∧ (buildSecondaryStage scb conf trace).trace = trace ++ claimedTrace scb.toList := by
  cases scb with
  | none => simp [buildSecondaryStage, claimedErr, claimedTrace, Option.toList]
  | some c =>
    rcases c with ⟨cid, res⟩
    cases res <;>
      simp [buildSecondaryStage, claimedErr, claimedTrace, Option.toList]

/-- The primary-then-secondary stage invokes exactly the claimed
configurers and surfaces the claimed first failure. -/
theorem buildPrimaryStage_spec (pb scb : Option Configurer)
    (conf : DataSystemConfiguration) (trace : List Nat) :
    (buildPrimaryStage pb scb conf trace).err = claimedErr (pb.toList ++ scb.toList)
    ∧ (buildPrimaryStage pb scb conf trace).trace
      = trace ++ claimedTrace (pb.toList ++ scb.toList) := by
  cases pb with
  | none =>
    simpa [buildPrimaryStage, Option.toList] using buildSecondaryStage_spec scb conf trace
  | some c =>
    rcases c with ⟨cid, res⟩
    cases res with
    | error e =>
      simp [buildPrimaryStage, Option.toList, claimedErr, claimedTrace]
    | ok v =>
      have hs := buildSecondaryStage_spec scb
        { conf with synchronizers := { conf.synchronizers with primary := some v } }
        (trace ++ [cid])
      simp [buildPrimaryStage, Option.toList, claimedErr, claimedTrace, hs.1, hs.2]

/-- The initializer-then-synchronizers stage invokes exactly the claimed
configurers and surfaces the claimed first failure. -/
theorem buildInitStage_spec (ib : List (Option Configurer)) (pb scb : Option Configurer)
    (conf : DataSystemConfiguration) (trace : List Nat)
    (h : ∀ b ∈ ib, b.isSome = true) :
    (buildInitStage ib pb scb conf trace).err
      = claimedErr (ib.reduceOption ++ pb.toList ++ scb.toList)
    ∧ (buildInitStage ib pb scb conf trace).trace
      = trace ++ claimedTrace (ib.reduceOption ++ pb.toList ++ scb.toList) := by
  have hil := buildInitializerList_spec ib conf trace 0 h
  rcases hbi : buildInitializerList conf trace 0 ib with ⟨conf1, err1, trace1⟩
  rw [hbi] at hil
  dsimp only at hil
  cases err1 with
  | some e =>
    have hE : claimedErr ib.reduceOption = some e := hil.1.symm
    simp [buildInitStage, hbi, hil.2, claimedErr_append, claimedTrace_append, hE,
      List.append_assoc]
  | none =>
    have hE : claimedErr ib.reduceOption = none := hil.1.symm
    obtain ⟨hE', htr⟩ := hil
    subst htr
    have hp := buildPrimaryStage_spec pb scb conf1 (trace ++ claimedTrace ib.reduceOption)
    simp [buildInitStage, hbi, hp.1, hp.2, claimedErr_append, claimedTrace_append,
      hE, List.append_assoc]

/-- Claim C2: a builder with a secondary synchronizer but no primary
fails at validation with the configuration error, the zero
configuration, and an empty construction trace (no store, initializer,
or synchronizer configurer is invoked); every other builder whose
initializer entries are non-nil constructs components in the order
store, then each initializer in list order, then primary, then
secondary, invoking exactly the configurers up to and including the
first failing one, and returns the first construction failure's error
(none when all succeed). -/
theorem claim_C2_build_order (d : DataSystemConfigurationBuilder) :
    (d.secondarySyncBuilder.isSome = true → d.primarySyncBuilder = none →
      d.Build = { conf := {}, err := some secondaryWithoutPrimaryMsg, trace := [] })
    ∧ ((d.secondarySyncBuilder.isSome && d.primarySyncBuilder.isNone) = false →
      (∀ b ∈ d.initializerBuilders, b.isSome = true) →
      d.Build.err = claimedErr (claimedBuildOrder d)
      ∧ d.Build.trace = claimedTrace (claimedBuildOrder d)) := by
  constructor
  · intro h1 h2
    simp [DataSystemConfigurationBuilder.Build, h1, h2]
  · intro hv hinits
    rcases d with ⟨sb, sm, ib, pb, scb, cfg⟩
    simp only at hv hinits
    cases sb with
    | none =>
      have hi := buildInitStage_spec ib pb scb cfg [] hinits
      simp [DataSystemConfigurationBuilder.Build, hv, claimedBuildOrder, Option.toList,
        hi.1, hi.2, List.append_assoc]
    | some c =>
      rcases c with ⟨cid, res⟩
      cases res with
      | error e =>
        simp [DataSystemConfigurationBuilder.Build, hv, claimedBuildOrder, Option.toList,
          claimedErr, claimedTrace]
      | ok v =>
        have hi := buildInitStage_spec ib pb scb { cfg with store := some v } [cid] hinits
        simp [DataSystemConfigurationBuilder.Build, hv, claimedBuildOrder, Option.toList,
          hi.1, hi.2, claimedErr, claimedTrace, List.append_assoc]

/-- Witness for C2 at concrete builders: a secondary-only builder fails
at validation with an empty trace, and a builder whose store succeeds
and whose first initializer fails aborts with that error after invoking
only the store and that initializer. -/
theorem claim_C2_build_order_witness :
    (DataSystemConfigurationBuilder.Build { secondarySyncBuilder := some ⟨4, .ok 40⟩ })
      = { conf := {}, err := some secondaryWithoutPrimaryMsg, trace := [] }
    ∧ (DataSystemConfigurationBuilder.Build
        { storeBuilder := some ⟨1, .ok 10⟩,
          initializerBuilders := [some ⟨2, .error "boom"⟩, some ⟨9, .ok 90⟩],
          primarySyncBuilder := some ⟨3, .ok 30⟩ }).err = some "boom"
    ∧ (DataSystemConfigurationBuilder.Build
        { storeBuilder := some ⟨1, .ok 10⟩,
          initializerBuilders := [some ⟨2, .error "boom"⟩, some ⟨9, .ok 90⟩],
          primarySyncBuilder := some ⟨3, .ok 30⟩ }).trace = [1, 2] := by
  refine ⟨(claim_C2_build_order _).1 rfl rfl, ?_, ?_⟩
  · have h := (claim_C2_build_order
      { storeBuilder := some ⟨1, .ok 10⟩,
        initializerBuilders := [some ⟨2, .error "boom"⟩, some ⟨9, .ok 90⟩],
        primarySyncBuilder := some ⟨3, .ok 30⟩ }).2 (by decide) (by decide)
    exact h.1.trans (by decide)
  · have h := (claim_C2_build_order
      { storeBuilder := some ⟨1, .ok 10⟩,
        initializerBuilders := [some ⟨2, .error "boom"⟩, some ⟨9, .ok 90⟩],
        primarySyncBuilder := some ⟨3, .ok 30⟩ }).2 (by decide) (by decide)
    exact h.2.trans (by decide)

end LDSdk
